import Mathlib

/-!
Verification development for the OurBnb scraping pipeline.

The repository contains two near-identical copies of the scraper core:
`microservice/src/scraper/{proxy,scrape,core,scrape_listing}.py` and
`scraper-worker/{proxy,scrape,scrape_listing}.py`.  The definitions below are
shallow embeddings of those Python functions.  Library calls with no bearing
on the verified properties (HTML anchor lookup via BeautifulSoup, `json.loads`,
`base64.b64decode(...).decode('utf-8')`) are taken as function parameters; all
repository-authored logic is translated line by line.  Time is modelled as a
natural-number timestamp passed explicitly where the source calls
`time.time()`.
-/

namespace OurBnb

/-! ## Proxy pool manager (`proxy.py`, class `ProxyManager`)

State: `_proxies` (the configured URL list, never mutated) and
`_proxy_cooldown_until` (dict from proxy URL to the unix timestamp until which
it is skipped).  The dict is modelled as a function `String → Option Nat`,
matching Python dict semantics (single binding per key). -/

structure ProxyState where
  proxies : List String
  cooldownUntil : String → Option Nat

/-- `ProxyManager._is_in_cooldown(proxy_url, now)`:
`until = self._proxy_cooldown_until.get(proxy_url); return bool(until and now < until)`.
A missing entry (and the unreachable `until == 0` falsy case, which in `Nat`
already makes `now < until` false) yields `false`. -/
def is_in_cooldown (s : ProxyState) (p : String) (now : Nat) : Bool :=
  match s.cooldownUntil p with
  | none => false
  | some u => decide (now < u)

/-- `ProxyManager._prune_expired_cooldowns(now)`: deletes every entry with
`until <= now`; entries with `now < until` are kept. -/
def prune_expired_cooldowns (s : ProxyState) (now : Nat) : ProxyState :=
  { s with cooldownUntil := fun p =>
      match s.cooldownUntil p with
      | none => none
      | some u => if now < u then some u else none }

/-- The `available` list computed inside `get_healthy_proxy`:
`[p for p in self._proxies if not self._is_in_cooldown(p, now)]`. -/
def availableProxies (s : ProxyState) (now : Nat) : List String :=
  s.proxies.filter (fun p => ! is_in_cooldown s p now)

/-- `ProxyManager.get_healthy_proxy(strategy="round_robin")`, returning the
selected proxy URL together with the post-call state (the only mutation the
method performs is `_prune_expired_cooldowns`; the `available.append(
available.pop(0))` "rotation" acts on the per-call local list `available`,
which is discarded when the method returns, so it is not a state change).
`none` models the Python `None` return (caller uses a direct connection). -/
def get_healthy_proxy_run (s : ProxyState) (now : Nat) : Option String × ProxyState :=
  if s.proxies.isEmpty then (none, s)
  else
    let s1 := prune_expired_cooldowns s now
    let available := availableProxies s1 now
    (available.head?, s1)

/-- The value returned by `get_healthy_proxy` under the round-robin (default)
strategy: `available[0]`, or `None` when `available` is empty or no proxies
are configured. -/
def get_healthy_proxy (s : ProxyState) (now : Nat) : Option String :=
  (get_healthy_proxy_run s now).1

/-- The value returned by `get_healthy_proxy(strategy="random")`:
`random.choice(available)`.  The random draw is modelled by an arbitrary
index `k`; `random.choice` picks `available[k % len(available)]` for some `k`. -/
def get_healthy_proxy_random (s : ProxyState) (now k : Nat) : Option String :=
  if s.proxies.isEmpty then none
  else
    let s1 := prune_expired_cooldowns s now
    let available := availableProxies s1 now
    if available.isEmpty then none else available.get? (k % available.length)

/-- `ProxyManager.mark_failed(proxy_dict)` for a non-`None` proxy whose URL is
`p`: `self._proxy_cooldown_until[proxy_url] = now + cooldown_seconds`
(dict assignment: inserts or overwrites the single binding for `p`).
With `proxy_dict = None` the method is a no-op and is not modelled. -/
def mark_failed (s : ProxyState) (p : String) (now cd : Nat) : ProxyState :=
  { s with cooldownUntil := fun q => if q = p then some (now + cd) else s.cooldownUntil q }

/-- `ProxyManager.reset_failures()`: clears all cooldowns. -/
def reset_failures (s : ProxyState) : ProxyState :=
  { s with cooldownUntil := fun _ => none }

/-! ## Python string primitives

Computable character-list implementations of the Python `str` methods the
source uses (`replace`, `strip`, `split`, `int()`), so that every definition
evaluates by kernel reduction. -/

/-- Whether the first list is a prefix of the second. -/
def prefixML : List Char → List Char → Bool
  | [], _ => true
  | _ :: _, [] => false
  | a :: as, b :: bs => a == b && prefixML as bs

/-- Python `s.replace(pat, rep)` for a nonempty `pat`: replace non-overlapping
occurrences left to right (all source call sites pass nonempty patterns).
Structurally recursive on a fuel argument (each step consumes at least one
character, so `length + 1` fuel always suffices) so that it evaluates by
kernel reduction. -/
def replaceFuel (pat rep : List Char) : Nat → List Char → List Char
  | 0, l => l
  | _ + 1, [] => []
  | f + 1, c :: cs =>
    if prefixML pat (c :: cs) && !pat.isEmpty then
      rep ++ replaceFuel pat rep f (List.drop (pat.length - 1) cs)
    else c :: replaceFuel pat rep f cs

/-- Python `s.split(sep)` for a nonempty separator, accumulator-style, with
the same fuel scheme. -/
def splitFuel (pat : List Char) : Nat → List Char → List Char → List (List Char)
  | 0, _, acc => [acc.reverse]
  | _ + 1, [], acc => [acc.reverse]
  | f + 1, c :: cs, acc =>
    if prefixML pat (c :: cs) && !pat.isEmpty then
      acc.reverse :: splitFuel pat f (List.drop (pat.length - 1) cs) []
    else splitFuel pat f cs (c :: acc)

/-- Python `str.replace` on strings. -/
def pyReplace (s pat rep : String) : String :=
  String.mk (replaceFuel pat.toList rep.toList (s.toList.length + 1) s.toList)

/-- Python `str.split` on strings. -/
def pySplit (s sep : String) : List String :=
  (splitFuel sep.toList (s.toList.length + 1) s.toList []).map String.mk

/-- The whitespace class of Python `str.strip()` (ASCII part). -/
def pyIsSpace (c : Char) : Bool :=
  c = ' ' || c = '\t' || c = '\n' || c = '\r' || c = '\x0b' || c = '\x0c'

/-- Python `s.strip()`. -/
def pyStrip (s : String) : String :=
  String.mk (((s.toList.dropWhile pyIsSpace).reverse.dropWhile pyIsSpace).reverse)

/-- Decimal value of a digit list. -/
def natOfDigits (l : List Char) : Nat := l.foldl (fun n c => n * 10 + (c.toNat - 48)) 0

/-! ## Paginated search orchestrators -/

/-- What `parse_airbnb_response(response.text)` yields on the body of an
HTTP response (2xx or not): either parsed content `c` plus the next-page
cursor, or the parser's `{"error": ...}` dict. -/
inductive PageResp (α : Type) where
  | content (c : α) (next : Option String)
  | parseErr
deriving DecidableEq, Repr

/-- The outcome of one `requests.get` + `raise_for_status` round trip for a
given page and proxy choice, together with how the body would parse.  `α` is
the page's parsed content (the listing list, abstracted).  The constructors
mirror the exception classes the two orchestrators branch on:

* `ok c next`      — 2xx response whose body parses to content `c` and
                     next-page cursor `next` (`None`/`''` = no further page);
* `parseErr`       — 2xx response whose body the parser rejects;
* `netErr`         — `requests.exceptions.ProxyError` / `ConnectTimeout` /
                     `ConnectionError` (the retryable network class);
                     `requests.get` raised, so no response object was bound;
* `httpErr body`   — the request completed with a non-2xx status:
                     `response` is bound to that response before
                     `raise_for_status` raises `HTTPError`, and `body` is
                     what its text would parse to. -/
inductive FetchOutcome (α : Type) where
  | ok (content : α) (next : Option String)
  | parseErr
  | netErr
  | httpErr (body : PageResp α)
deriving DecidableEq, Repr

/-- Python truthiness of the `next_cursor` value checked by
`if not next_cursor: break` (the cursor is a string or `None`; an empty
string is falsy). -/
def cursorTruthy : Option String → Bool
  | none => false
  | some c => c != ""

/-- Result of one orchestrator run of `scraper-worker/scrape.py::search_airbnb`.
`total` is `total_listing_count` (the sum of the `import_function` return
values); `pages` counts pages whose listings were emitted; `marked` records,
in order, the proxies passed to `proxy_manager.mark_failed`; `trace` records,
in order, every `requests.get` attempt as (page number, proxy used). -/
structure RunResult where
  total : Nat
  pages : Nat
  marked : List String
  trace : List (Nat × Option String)
deriving DecidableEq, Repr

/-- The page loop of `scraper-worker/scrape.py::search_airbnb`
(`for page in range(1, max_pages + 1)`), with the remaining page budget as
fuel.  `fetch page proxy` is the round-trip outcome of requesting `page`
through `proxy`; `imp` is the caller-supplied `import_function` (its integer
return value is added to `total_listing_count`).  Per page:
attempt with the current proxy; on `netErr` while a proxy is set, call
`mark_failed`, set `proxy = None` for the rest of the run, and retry the same
page once directly — any failure of that direct retry (or a parse error on its
body) breaks the loop; `netErr` without a proxy, `httpErr`, or a parse error
break the loop immediately.  Breaking returns everything accumulated so far. -/
def searchLoop {α : Type} (fetch : Nat → Option String → FetchOutcome α) (imp : α → Nat) :
    Option String → Nat → Nat → Nat → Nat → List String → List (Nat × Option String) → RunResult
  | _, _, 0, total, pages, marked, trace => ⟨total, pages, marked, trace⟩
  | proxy, page, r + 1, total, pages, marked, trace =>
    let trace := trace ++ [(page, proxy)]
    match fetch page proxy with
    | .ok c next =>
      let total := total + imp c
      if cursorTruthy next then
        searchLoop fetch imp proxy (page + 1) r total (pages + 1) marked trace
      else ⟨total, pages + 1, marked, trace⟩
    | .parseErr => ⟨total, pages, marked, trace⟩
    | .httpErr _ => ⟨total, pages, marked, trace⟩
    | .netErr =>
      match proxy with
      | none => ⟨total, pages, marked, trace⟩
      | some p =>
        let marked := marked ++ [p]
        let trace := trace ++ [(page, none)]
        match fetch page none with
        | .ok c next =>
          let total := total + imp c
          if cursorTruthy next then
            searchLoop fetch imp none (page + 1) r total (pages + 1) marked trace
          else ⟨total, pages + 1, marked, trace⟩
        | _ => ⟨total, pages, marked, trace⟩

/-- `scraper-worker/scrape.py::search_airbnb`: one header profile and one
initially selected proxy (`proxy`) are held for the whole run; the loop starts
at page 1 with budget `max_pages`. -/
def search_airbnb {α : Type} (fetch : Nat → Option String → FetchOutcome α) (imp : α → Nat)
    (proxy : Option String) (maxPages : Nat) : RunResult :=
  searchLoop fetch imp proxy 1 maxPages 0 0 [] []

/-- The `while attempted < max_proxy_attempts` loop of
`microservice/src/scraper/core.py::search_listings` (fuel = the attempt
budget, which the source sets to `proxy_manager.proxy_count`).  The loop
threads the `response` variable (`resp`), initialized to `None` before the
loop: each iteration takes a healthy proxy (or breaks if there is none) and
issues the request; a network-class error leaves `response` as it was; a
non-2xx completion REBINDS `response` to the non-2xx response before
`raise_for_status` raises — in both cases the caught `RequestException`
marks that proxy failed and the loop moves on to the next healthy proxy.  A
2xx response breaks with it.  Returns the final `response`, the updated pool
state, the mark list and the attempt trace. -/
def msTryProxies {α : Type} (fetch : Nat → Option String → FetchOutcome α) (page now cd : Nat) :
    Nat → ProxyState → Option (PageResp α) → List String → List (Nat × Option String) →
    Option (PageResp α) × ProxyState × List String × List (Nat × Option String)
  | 0, s, resp, marked, trace => (resp, s, marked, trace)
  | b + 1, s, resp, marked, trace =>
    match get_healthy_proxy s now with
    | none => (resp, s, marked, trace)
    | some p =>
      let trace := trace ++ [(page, some p)]
      match fetch page (some p) with
      | .ok c next => (some (.content c next), s, marked, trace)
      | .parseErr => (some .parseErr, s, marked, trace)
      | .netErr =>
        msTryProxies fetch page now cd b (mark_failed s p now cd) resp (marked ++ [p]) trace
      | .httpErr body =>
        msTryProxies fetch page now cd b (mark_failed s p now cd) (some body)
          (marked ++ [p]) trace

/-- Result of one run of `core.py::search_listings`.  `success` / `listings`
mirror the returned dict (`listings` abstracts `all_listings` as the list of
per-page contents, which is returned even on failure); `marked` and `trace`
are the same instrumentation as in `RunResult`. -/
structure MsResult (α : Type) where
  success : Bool
  listings : List α
  pages : Nat
  marked : List String
  trace : List (Nat × Option String)
deriving DecidableEq, Repr

/-- The page loop of `core.py::search_listings` (fuel = remaining page
budget).  Per page: run the proxy loop (`msTryProxies`) with `response`
starting as `None`; the direct attempt happens only under the source's
`if response is None:` guard — in particular, after a proxied non-2xx the
retained stale body is parsed instead of any direct retry.  A direct
attempt rebinds `response` unless it fails at the network level; a
still-`None` response ends the run with `success = False` and the listings
accumulated so far; otherwise the final response's body is parsed — a parse
error likewise returns the accumulated listings with `success = False`,
else the page's content is appended and the cursor decides continuation. -/
def msLoop {α : Type} (fetch : Nat → Option String → FetchOutcome α) (now cd : Nat) :
    Nat → Nat → ProxyState → List α → Nat → List String → List (Nat × Option String) →
    MsResult α × ProxyState
  | _, 0, s, acc, pages, marked, trace => (⟨true, acc, pages, marked, trace⟩, s)
  | page, r + 1, s, acc, pages, marked, trace =>
    match msTryProxies fetch page now cd s.proxies.length s none marked trace with
    | (resp0, s1, m1, t1) =>
      let dr : Option (PageResp α) × List (Nat × Option String) :=
        match resp0 with
        | some resp => (some resp, t1)
        | none =>
          match fetch page none with
          | .ok c next => (some (.content c next), t1 ++ [(page, none)])
          | .parseErr => (some .parseErr, t1 ++ [(page, none)])
          | .httpErr body => (some body, t1 ++ [(page, none)])
          | .netErr => (none, t1 ++ [(page, none)])
      match dr.1 with
      | none => (⟨false, acc, pages, m1, dr.2⟩, s1)
      | some (.content c next) =>
        let acc := acc ++ [c]
        if cursorTruthy next then msLoop fetch now cd (page + 1) r s1 acc (pages + 1) m1 dr.2
        else (⟨true, acc, pages + 1, m1, dr.2⟩, s1)
      | some .parseErr => (⟨false, acc, pages, m1, dr.2⟩, s1)

/-- `microservice/src/scraper/core.py::search_listings`, starting at page 1
with budget `maxPages` on pool state `s` (cooldown duration `cd`, all requests
during the run at timestamp `now`). -/
def search_listings {α : Type} (fetch : Nat → Option String → FetchOutcome α)
    (s : ProxyState) (now cd maxPages : Nat) : MsResult α × ProxyState :=
  msLoop fetch now cd 1 maxPages s [] 0 [] []

/-! ## Listing detail fetcher (`core.py::get_listing_details`) -/

/-- Return value of `scrape_listing.py::get_listing_data` (which never raises:
its whole body is wrapped in `try/except` returning `{"error": str(e)}`):
either the parsed detail payload or an error dict with message `msg`. -/
inductive DetailResult (α : Type) where
  | okd (d : α)
  | errd (msg : String)
deriving DecidableEq, Repr

/-- The dict `get_listing_details` is supposed to return:
`{"success": True, "data": ...}` or `{"success": False, "error": ...}`. -/
inductive ApiDetail (α : Type) where
  | success (d : α)
  | failure (msg : String)
deriving DecidableEq, Repr

/-- Python's `"Could not find" in msg` substring test. -/
def containsCouldNotFind (msg : String) : Bool :=
  (pySplit msg "Could not find").length != 1

/-- The `while attempted < max_proxy_attempts` loop of
`core.py::get_listing_details` (fuel = attempt budget = `proxy_count`).
A proxy attempt whose result is an error dict *not* containing
"Could not find" marks the proxy failed, resets `result = None` and
continues; any other result (parsed data, or a "Could not find" error dict)
breaks with that result.  Returns `result` and the pool state. -/
def gldTryProxies {α : Type} (fetchD : Option String → DetailResult α) (now cd : Nat) :
    Nat → ProxyState → Option (DetailResult α) × ProxyState
  | 0, s => (none, s)
  | b + 1, s =>
    match get_healthy_proxy s now with
    | none => (none, s)
    | some p =>
      match fetchD (some p) with
      | .okd d => (some (.okd d), s)
      | .errd msg =>
        if containsCouldNotFind msg then (some (.errd msg), s)
        else gldTryProxies fetchD now cd b (mark_failed s p now cd)

/-- `core.py::get_listing_details(room_id)`.  After the proxy loop, the source
reads `if result is None:` and — only inside that branch — performs the direct
attempt and the `return {"success": ...}` statements.  When the proxy loop
produced any result, control falls off the end of the function, i.e. Python
returns `None`; this implicit `None` is modelled as `Option.none`. -/
def get_listing_details {α : Type} (fetchD : Option String → DetailResult α)
    (s : ProxyState) (now cd : Nat) : Option (ApiDetail α) :=
  match gldTryProxies fetchD now cd s.proxies.length s with
  | (some _, _) => none
  | (none, _) =>
    match fetchD none with
    | .errd msg => some (.failure msg)
    | .okd d => some (.success d)

/-! ## Search response parser (`scrape.py::parse_airbnb_response`)

The embedded JSON document is modelled by `JVal` (numbers as integers — no
claim involves fractional JSON numbers).  Python operations that can raise
(`len`, subscripting, `.get` on a non-dict, iteration over a non-iterable)
run in `PyM := Except String`, the error string naming the exception class;
such an uncaught exception aborts the whole parse, exactly as in the source.
Library calls — BeautifulSoup's anchor lookup, `json.loads`, and
`base64.b64decode(...).decode('utf-8')` — are parameters of the embedding. -/

inductive JVal where
  | null
  | bool (b : Bool)
  | num (n : Int)
  | str (s : String)
  | arr (elems : List JVal)
  | obj (fields : List (String × JVal))
deriving Repr

abbrev PyM (α : Type) := Except String α

/-- Lookup in a JSON object.  `json.loads` gives a dict where a duplicated
key keeps its last value, hence last-binding-wins. -/
def jlookup (fs : List (String × JVal)) (k : String) : Option JVal :=
  (fs.filter (fun kv => kv.1 = k)).getLast?.map (·.2)

def JVal.isObj : JVal → Bool
  | .obj _ => true
  | _ => false

/-- Python truthiness: `None`, `False`, `0`, `''`, `[]`, `{}` are falsy. -/
def pyTruthy : JVal → Bool
  | .null => false
  | .bool b => b
  | .num n => n != 0
  | .str s => s != ""
  | .arr xs => !xs.isEmpty
  | .obj fs => !fs.isEmpty

/-- Python `v == lit` for a string literal `lit`: only equal-valued strings
compare equal (a non-string never equals a string). -/
def pyEqStr (v : JVal) (lit : String) : Bool :=
  match v with
  | .str s => s == lit
  | _ => false

mutual

/-- Python `repr`, as used transitively by f-string interpolation of
containers. -/
def pyRepr : JVal → String
  | .null => "None"
  | .bool true => "True"
  | .bool false => "False"
  | .num n => toString n
  | .str s => "'" ++ s ++ "'"
  | .arr xs => "[" ++ ", ".intercalate (pyReprList xs) ++ "]"
  | .obj fs => "\x7b" ++ ", ".intercalate (pyReprFields fs) ++ "\x7d"

/-- `repr` of the elements of a JSON array. -/
def pyReprList : List JVal → List String
  | [] => []
  | x :: xs => pyRepr x :: pyReprList xs

/-- `repr` of the fields of a JSON object. -/
def pyReprFields : List (String × JVal) → List String
  | [] => []
  | kv :: fs => ("'" ++ kv.1 ++ "': " ++ pyRepr kv.2) :: pyReprFields fs

end

/-- Python `str()`, as used by f-string interpolation. -/
def pyStr : JVal → String
  | .str s => s
  | v => pyRepr v

/-- `d.get(k)`: `None` for a missing key; `AttributeError` on a non-dict. -/
def pyGet (v : JVal) (k : String) : PyM JVal :=
  match v with
  | .obj fs => .ok ((jlookup fs k).getD .null)
  | _ => .error "AttributeError"

/-- `d.get(k, default)`. -/
def pyGetD (v : JVal) (k : String) (dflt : JVal) : PyM JVal :=
  match v with
  | .obj fs => .ok ((jlookup fs k).getD dflt)
  | _ => .error "AttributeError"

/-- `len(v)`: defined for strings, lists and dicts; `TypeError` otherwise. -/
def pyLen (v : JVal) : PyM Nat :=
  match v with
  | .str s => .ok s.length
  | .arr xs => .ok xs.length
  | .obj fs => .ok fs.length
  | _ => .error "TypeError"

/-- `v[i]` for an integer index (JSON object keys are strings, so a dict
subscripted by an integer raises `KeyError`). -/
def pyIndex (v : JVal) (i : Nat) : PyM JVal :=
  match v with
  | .arr xs => match xs.get? i with
    | some x => .ok x
    | none => .error "IndexError"
  | .str s => match s.toList.get? i with
    | some c => .ok (.str (String.singleton c))
    | none => .error "IndexError"
  | .obj _ => .error "KeyError"
  | _ => .error "TypeError"

/-- `d[k]` for a string key. -/
def pyIndexKey (v : JVal) (k : String) : PyM JVal :=
  match v with
  | .obj fs => match jlookup fs k with
    | some x => .ok x
    | none => .error "KeyError"
  | _ => .error "TypeError"

/-- `k in d`, used only after an `isinstance(…, dict)` guard. -/
def objHasKey (v : JVal) (k : String) : Bool :=
  match v with
  | .obj fs => (jlookup fs k).isSome
  | _ => false

/-- `for x in v`: lists yield elements, strings their characters, dicts
their keys; `TypeError` otherwise. -/
def pyIter (v : JVal) : PyM (List JVal) :=
  match v with
  | .arr xs => .ok xs
  | .str s => .ok (s.toList.map (fun c => JVal.str (String.singleton c)))
  | .obj fs => .ok (fs.map (fun kv => JVal.str kv.1))
  | _ => .error "TypeError"

/-- Python `int(s)` on a string: optional surrounding whitespace, optional
sign, then decimal digits possibly grouped by single underscores; `none`
models `ValueError`. -/
def pyInt (s : String) : Option Int :=
  let t := (pyStrip s).toList
  let neg : Bool := match t with | c :: _ => c = '-' | [] => false
  let core : List Char :=
    match t with
    | c :: cs => if c = '-' || c = '+' then cs else t
    | [] => []
  let groups := splitFuel ['_'] (core.length + 1) core []
  if !core.isEmpty && groups.all (fun g => !g.isEmpty && g.all Char.isDigit) then
    some (if neg then -(natOfDigits groups.flatten : Int) else (natOfDigits groups.flatten : Int))
  else none

/-- The price-integer computation of `parse_airbnb_response` (lines 235–241
of the microservice copy) applied to the resolved `price_text` value:
`price_int = 0`; if `price_text` is truthy and not `'N/A'`, try
`int(price_text.replace("'", "").replace("CHF", "").strip())`, where a
`ValueError` (unparseable text) or `AttributeError` (non-string value) is
caught and leaves 0.  The worker copy differs only in stripping the
typographic apostrophe `U+2019` instead of `'`. -/
def price_int_of (ptext : JVal) : Int :=
  if pyTruthy ptext && ! pyEqStr ptext "N/A" then
    match ptext with
    | .str s => (pyInt (pyStrip (pyReplace (pyReplace s "'" "") "CHF" ""))).getD 0
    | _ => 0
  else 0

/-- One parsed listing record, mirroring the dict appended to `listings`. -/
structure Listing where
  id : JVal
  title : JVal
  price_text : JVal
  price_int : Int
  total_price_details : JVal
  rating : JVal
  images : List JVal
  url : JVal
deriving Repr

/-- `result.get('demandStayListing', {}).get('id')` — the base64 composite
id token of one search result. -/
def listing_token (result : JVal) : PyM JVal := do
  let dsl ← pyGetD result "demandStayListing" (.obj [])
  pyGet dsl "id"

/-- The `listing_id` computation: `None` unless the token is truthy; for a
truthy string token, `base64.b64decode(token).decode('utf-8')` (the `b64`
parameter, `none` modelling a raised `binascii.Error`/`UnicodeDecodeError`)
followed by `.split(':')[-1]`; any exception — including the `TypeError` a
truthy non-string token causes — is caught by the bare `except`, which keeps
the raw token. -/
def listing_id_of (b64 : String → Option String) (encoded : JVal) : JVal :=
  if pyTruthy encoded then
    match encoded with
    | .str s =>
      match b64 s with
      | some decoded => .str ((pySplit decoded ":").getLastD "")
      | none => encoded
    | _ => encoded
  else .null

/-- `[pic.get('picture') for pic in pictures if pic.get('picture')]`. -/
def imageUrls : List JVal → PyM (List JVal)
  | [] => .ok []
  | pic :: rest => do
    let pv ← pyGet pic "picture"
    let tail ← imageUrls rest
    if pyTruthy pv then .ok (pv :: tail) else .ok tail

/-- The title resolution: the localized name with the `listing.name`
fallback when falsy (`if not listing_title:`). -/
def resolve_title (result : JVal) (t1 : JVal) : PyM JVal :=
  if ! pyTruthy t1 then do
    let lst ← pyGetD result "listing" (.obj [])
    pyGet lst "name"
  else pure t1

/-- The price-text resolution: the `price` field with the `discountedPrice`
fallback when it is `'N/A'`. -/
def resolve_price_text (priceObj : JVal) (p1 : JVal) : PyM JVal :=
  if pyEqStr p1 "N/A" then pyGetD priceObj "discountedPrice" (.str "N/A")
  else pure p1

/-- The body of the `for result in search_results:` loop for one `result`:
`none` models `continue` (the `__typename` filter); `some` is the dict
appended to `listings`. -/
def extract_listing (b64 : String → Option String) (result : JVal) : PyM (Option Listing) := do
  let tn ← pyGet result "__typename"
  if ! pyEqStr tn "StaySearchResult" then
    return none
  else do
    let encoded ← listing_token result
    let lid := listing_id_of b64 encoded
    let nl ← pyGetD result "nameLocalized" (.obj [])
    let t1 ← pyGet nl "localizedStringWithTranslationPreference"
    let title ← resolve_title result t1
    let sdp ← pyGetD result "structuredDisplayPrice" (.obj [])
    let priceObj ← pyGetD sdp "primaryLine" (.obj [])
    let p1 ← pyGetD priceObj "price" (.str "N/A")
    let ptext ← resolve_price_text priceObj p1
    let pacc ← pyGetD priceObj "accessibilityLabel" (.str "")
    let rating ← pyGetD result "avgRatingLocalized" (.str "N/A")
    let pics ← pyGetD result "contextualPictures" (.arr [])
    let picList ← pyIter pics
    let urls ← imageUrls picList
    let url := if pyTruthy lid then JVal.str ("https://www.airbnb.ch/rooms/" ++ pyStr lid)
      else JVal.null
    return some ⟨lid, title, ptext, price_int_of ptext, pacc, rating, urls, url⟩

/-- The `for item in niobe_data:` loop locating the results array and the
next-page cursor; carries the current `search_results` / `next_cursor`
values and stops early (`break`) when `search_results` is truthy. -/
def niobe_loop : List JVal → JVal → JVal → PyM (JVal × JVal)
  | [], sr, nc => .ok (sr, nc)
  | item :: rest, sr, nc => do
    let n ← pyLen item
    if n > 1 then do
      let i1 ← pyIndex item 1
      if i1.isObj && objHasKey i1 "data" then do
        let d ← pyIndexKey i1 "data"
        let pres ← pyGetD d "presentation" (.obj [])
        let ss ← pyGetD pres "staysSearch" (.obj [])
        let res ← pyGetD ss "results" (.obj [])
        let sr2 ← pyGetD res "searchResults" (.arr [])
        let pinfo ← pyGetD res "paginationInfo" (.obj [])
        let nc2 ← pyGet pinfo "nextPageCursor"
        if pyTruthy sr2 then .ok (sr2, nc2)
        else niobe_loop rest sr2 nc2
      else niobe_loop rest sr nc
    else niobe_loop rest sr nc

/-- The `for result in search_results:` loop. -/
def listing_loop (b64 : String → Option String) : List JVal → PyM (List Listing)
  | [] => .ok []
  | r :: rest => do
    let o ← extract_listing b64 r
    let tail ← listing_loop b64 rest
    match o with
    | some l => .ok (l :: tail)
    | none => .ok tail

/-- Return value of `parse_airbnb_response`: the `({'error': msg}, None)`
pair for the two explicit failure modes, or `(listings, next_cursor)`. -/
inductive SearchParse where
  | errResult (msg : String)
  | okResult (listings : List Listing) (cursor : JVal)
deriving Repr

/-- Error message for a missing `data-deferred-state-0` script tag
(microservice copy; the worker copy appends ", see script_not_found.html"). -/
def msgMissingScript : String := "Could not find data state script tag (data-deferred-state-0)"

/-- Error message for undecodable JSON inside the script tag. -/
def msgBadJson : String := "Failed to decode JSON data."

/-- `scrape.py::parse_airbnb_response(html_content)`.  `find` models
`soup.find('script', {'id': 'data-deferred-state-0'})` (the tag's text, if
present), `loads` models `json.loads` (`none` = `JSONDecodeError`), `b64`
models the composite-id decoding. -/
def parse_airbnb_response (find : String → Option String) (loads : String → Option JVal)
    (b64 : String → Option String) (html : String) : PyM SearchParse :=
  match find html with
  | none => .ok (.errResult msgMissingScript)
  | some txt =>
    match loads txt with
    | none => .ok (.errResult msgBadJson)
    | some data => do
      let niobe ← pyGetD data "niobeClientData" (.arr [])
      let items ← pyIter niobe
      let (sr, nc) ← niobe_loop items (.arr []) .null
      let rlist ← pyIter sr
      let ls ← listing_loop b64 rlist
      return .okResult ls nc

/-! ## Query builder (`scrape.py::build_airbnb_url`)

Modelled from the microservice copy (lines 50–169); the worker copy differs
only in an extra constant `"locale": "en"` parameter.  Optional arguments are
`Option`s (`None` defaults); `amenities` is already the cleaned list of
integer ids (the source's enum-to-value conversion). -/

/-- A query-parameter value: a string, a raw integer (the occupancy counts
are passed through unconverted), a list of integers (`amenities[]`) or a
list of strings (`selected_filter_order[]`). -/
inductive PVal where
  | s (v : String)
  | n (v : Int)
  | ints (v : List Int)
  | strs (v : List String)
deriving DecidableEq, Repr

/-- Python dict assignment `params[k] = v`: overwrite in place, or append. -/
def setParam (ps : List (String × PVal)) (k : String) (v : PVal) : List (String × PVal) :=
  if ps.any (fun kv => kv.1 = k) then ps.map (fun kv => if kv.1 = k then (k, v) else kv)
  else ps ++ [(k, v)]

/-- Dict lookup on the built parameter map. -/
def getParam (ps : List (String × PVal)) (k : String) : Option PVal :=
  (ps.find? (fun kv => kv.1 = k)).map (·.2)

/-- The umlaut replacement table applied to the location, in source order. -/
def sanitize_location (location : String) : String :=
  pyReplace (pyReplace (pyReplace (pyReplace (pyReplace (pyReplace (pyReplace
    location "ä" "a") "Ä" "A") "ö" "o") "Ö" "O") "ü" "u") "Ü" "U") "ß" "ss"

/-- Gregorian leap year. -/
def isLeap (y : Nat) : Bool := (y % 4 == 0 && y % 100 != 0) || y % 400 == 0

/-- Days in a month. -/
def daysInMonth (y m : Nat) : Nat :=
  if m = 2 then (if isLeap y then 29 else 28)
  else if m = 4 || m = 6 || m = 9 || m = 11 then 30 else 31

/-- One numeric field of a `%Y-%m-%d` date. -/
def parseDatePart (s : String) (maxLen : Nat) : Option Nat :=
  if s != "" && s.toList.length ≤ maxLen && s.toList.all Char.isDigit then
    some (natOfDigits s.toList)
  else none

/-- `datetime.strptime(s, "%Y-%m-%d")`, reduced to the calendar triple;
`none` models the `ValueError` on malformed input. -/
def parseYmd (s : String) : Option (Nat × Nat × Nat) :=
  match pySplit s "-" with
  | [ys, ms, ds] => do
    let y ← parseDatePart ys 4
    let m ← parseDatePart ms 2
    let d ← parseDatePart ds 2
    if 1 ≤ y && 1 ≤ m && m ≤ 12 && 1 ≤ d && d ≤ daysInMonth y m then some (y, m, d)
    else none
  | _ => none

/-- Days since the civil epoch 1970-01-01 (standard days-from-civil
computation; all intermediate quantities are nonnegative for years ≥ 1). -/
def daysFromCivil (y m d : Nat) : Int :=
  let y2 : Int := if m ≤ 2 then (y : Int) - 1 else (y : Int)
  let era : Int := y2 / 400
  let yoe : Int := y2 - era * 400
  let mp : Int := ((m : Int) + 9) % 12
  let doy : Int := (153 * mp + 2) / 5 + (d : Int) - 1
  let doe : Int := yoe * 365 + yoe / 4 - yoe / 100 + doy
  era * 146097 + doe - 719468

/-- `(d2 - d1).days` for the two parsed dates; `none` models the caught
`ValueError`/`TypeError` (`num_nights = None`). -/
def num_nights_of (checkin checkout : String) : Option Int := do
  let a ← parseYmd checkin
  let b ← parseYmd checkout
  return daysFromCivil b.1 b.2.1 b.2.2 - daysFromCivil a.1 a.2.1 a.2.2

/-- The inputs of `build_airbnb_url`. -/
structure UrlCriteria where
  location : String
  adults : Int
  children : Int
  infants : Int
  pets : Int
  checkin : String
  checkout : String
  price_min : Option Int
  price_max : Option Int
  amenities : Option (List Int)
  room_type : Option String
  min_bedrooms : Option Int
  min_beds : Option Int
  min_bathrooms : Option Int
deriving Repr

/-- `if amenities:` — `None` and the empty list are both falsy. -/
def amenitiesTruthy (c : UrlCriteria) : Bool :=
  match c.amenities with
  | none => false
  | some l => !l.isEmpty

/-- The net value of the source's incrementally assigned `has_filters`. -/
def has_filters (c : UrlCriteria) : Bool :=
  c.price_min.isSome || c.price_max.isSome || amenitiesTruthy c || c.room_type.isSome ||
    c.min_bedrooms.isSome || c.min_beds.isSome || c.min_bathrooms.isSome

/-- The `params` dict of `build_airbnb_url` as first assembled, before any
filter branch runs. -/
def base_params (c : UrlCriteria) : List (String × PVal) :=
  [("refinement_paths[]", .s "/homes"), ("date_picker_type", .s "calendar"),
   ("checkin", .s c.checkin), ("checkout", .s c.checkout), ("adults", .n c.adults),
   ("children", .n c.children), ("infants", .n c.infants), ("pets", .n c.pets),
   ("search_type", .s "search_query"), ("query", .s (sanitize_location c.location))]

/-- The `if num_nights:` step of the price branch: adds
`price_filter_num_nights` for a truthy (parsed, nonzero) night count. -/
def price_nights_param (nn : Option Int) (ps : List (String × PVal)) : List (String × PVal) :=
  match nn with
  | some v => if v != 0 then setParam ps "price_filter_num_nights" (.s (toString v)) else ps
  | none => ps

/-- The filter branches of `build_airbnb_url` (source order: price, amenities,
room type, min bedrooms, min beds, min bathrooms), threading the params dict
and the incrementally built `selected_filter_order` list. -/
def apply_filters (c : UrlCriteria) (params : List (String × PVal)) :
    List (String × PVal) × List String :=
  let sfo : List String := []
  let st : List (String × PVal) × List String :=
    if c.price_min.isSome || c.price_max.isSome then
      let ps := setParam params "price_filter_input_type" (.s "2")
      let ps := setParam ps "channel" (.s "EXPLORE")
      let ps := price_nights_param (num_nights_of c.checkin c.checkout) ps
      let st1 :=
        match c.price_min with
        | some v => (setParam ps "price_min" (.s (toString v)), sfo ++ ["price_min:" ++ toString v])
        | none => (ps, sfo)
      match c.price_max with
      | some v => (setParam st1.1 "price_max" (.s (toString v)), st1.2 ++ ["price_max:" ++ toString v])
      | none => st1
    else (params, sfo)
  let st : List (String × PVal) × List String :=
    if amenitiesTruthy c then
      let cleanAm := c.amenities.getD []
      (setParam st.1 "amenities[]" (.ints cleanAm),
       st.2 ++ cleanAm.map (fun a => "amenities:" ++ toString a))
    else st
  let st : List (String × PVal) × List String :=
    match c.room_type with
    | some v => (setParam st.1 "room_types[]" (.s v), st.2 ++ ["room_types:" ++ v])
    | none => st
  let st : List (String × PVal) × List String :=
    match c.min_bedrooms with
    | some v => (setParam st.1 "min_bedrooms" (.s (toString v)), st.2 ++ ["min_bedrooms:" ++ toString v])
    | none => st
  let st : List (String × PVal) × List String :=
    match c.min_beds with
    | some v => (setParam st.1 "min_beds" (.s (toString v)), st.2 ++ ["min_beds:" ++ toString v])
    | none => st
  match c.min_bathrooms with
  | some v => (setParam st.1 "min_bathrooms" (.s (toString v)), st.2 ++ ["min_bathrooms:" ++ toString v])
  | none => st

/-- `microservice/src/scraper/scrape.py::build_airbnb_url`: returns
`(url_path, params)`.  The branch structure, parameter insertion order and
the incremental construction of `selected_filter_order` follow the source
line by line. -/
def build_airbnb_url (c : UrlCriteria) : String × List (String × PVal) :=
  let st := apply_filters c (base_params c)
  let ps :=
    if has_filters c then
      let ps := setParam st.1 "search_type" (.s "filter_change")
      let ps := setParam ps "search_mode" (.s "regular_search")
      let flag : String := if st.2.length > 1 then "true" else "false"
      let ps := setParam ps "update_selected_filters" (.s flag)
      if !st.2.isEmpty then setParam ps "selected_filter_order[]" (.strs st.2) else ps
    else st.1
  ("https://www.airbnb.ch/s/homes", ps)

/-- The `selected_filter_order` entry list, written directly as the
concatenation of the per-filter contributions (to be proved equal to the
incrementally built list inside `build_airbnb_url`). -/
def filter_entries (c : UrlCriteria) : List String :=
  (c.price_min.elim [] (fun v => ["price_min:" ++ toString v])) ++
  (c.price_max.elim [] (fun v => ["price_max:" ++ toString v])) ++
  (if amenitiesTruthy c then (c.amenities.getD []).map (fun a => "amenities:" ++ toString a)
   else []) ++
  (c.room_type.elim [] (fun v => ["room_types:" ++ v])) ++
  (c.min_bedrooms.elim [] (fun v => ["min_bedrooms:" ++ toString v])) ++
  (c.min_beds.elim [] (fun v => ["min_beds:" ++ toString v])) ++
  (c.min_bathrooms.elim [] (fun v => ["min_bathrooms:" ++ toString v]))

/-! ## Definitions following the spec's words (for refutation only)

These two definitions are NOT translations of the source; they state what the
spec/claim text says, so that it can be compared with the source-derived
definitions above. -/

/-- Spec-words definition: the leading maximal run of decimal digits found
anywhere in the text ("extracts the first run of digits as the integer
price"). -/
def first_digit_run (s : String) : Nat :=
  ((s.toList.dropWhile (fun ch => !ch.isDigit)).takeWhile Char.isDigit).foldl
    (fun acc ch => acc * 10 + (ch.toNat - 48)) 0

/-- Spec-words definition: the number of *distinct filter keys* present in a
criteria record — the key part (before `:`) of each `selected_filter_order`
entry, deduplicated, so several amenity values count as one key. -/
def spec_distinct_filter_keys (c : UrlCriteria) : Nat :=
  ((filter_entries c).map (fun e => (pySplit e ":").headD "")).dedup.length

/-! ## Concrete evaluation fixtures -/

/-- A two-proxy pool with no cooldowns. -/
def poolAB : ProxyState := ⟨["p1", "p2"], fun _ => none⟩

/-- A single-proxy pool with no cooldowns. -/
def poolOne : ProxyState := ⟨["p1"], fun _ => none⟩

/-- An empty proxy pool (direct connection only). -/
def poolEmpty : ProxyState := ⟨[], fun _ => none⟩

/-- A pool where endpoint `a` cools down until timestamp 10. -/
def poolW : ProxyState := ⟨["a", "b"], fun p => if p = "a" then some 10 else none⟩

/-- A network oracle on which every request raises a retryable network
error. -/
def fetchAllNet : Nat → Option String → FetchOutcome Nat := fun _ _ => .netErr

/-- A network oracle on which every request completes with a non-2xx status
(`raise_for_status` raises `HTTPError`); the non-2xx body (an error page)
does not parse. -/
def fetchAllHttp : Nat → Option String → FetchOutcome Nat := fun _ _ => .httpErr .parseErr

/-- The spec's end-to-end scenario: page 1 succeeds through the proxy with 18
listings and a cursor; page 2 raises a retryable network error on the proxy
and succeeds directly with 5 listings and no cursor. -/
def fetchScenario : Nat → Option String → FetchOutcome Nat := fun page pr =>
  match page, pr with
  | 1, some _ => .ok 18 (some "CUR")
  | 2, some _ => .netErr
  | 2, none => .ok 5 none
  | _, _ => .httpErr .parseErr

/-- A detail oracle on which `get_listing_data` always succeeds. -/
def fetchDok : Option String → DetailResult Nat := fun _ => .okd 7

/-- A base64+utf-8 decoder stub that decodes only the token `"TOK1"`. -/
def b64fix : String → Option String := fun s => if s = "TOK1" then some "StayListing:111" else none

/-- A search result whose resolved price text is `"263 CHF"`. -/
def resCHF : JVal :=
  .obj [("__typename", .str "StaySearchResult"),
        ("demandStayListing", .obj [("id", .str "TOK1")]),
        ("nameLocalized", .obj [("localizedStringWithTranslationPreference", .str "Flat A")]),
        ("structuredDisplayPrice", .obj [("primaryLine",
          .obj [("price", .str "263 CHF"), ("accessibilityLabel", .str "263 CHF total")])]),
        ("avgRatingLocalized", .str "4.9"),
        ("contextualPictures", .arr [.obj [("picture", .str "img1")]])]

/-- A search result whose price text is the unparseable `"N/A"`. -/
def resNA : JVal :=
  .obj [("__typename", .str "StaySearchResult"),
        ("structuredDisplayPrice", .obj [("primaryLine", .obj [("price", .str "N/A")])])]

/-- A search result whose resolved price text is `"263.50 CHF"` (parseable by
digit-run extraction, not by `int()`). -/
def resPrice : JVal :=
  .obj [("__typename", .str "StaySearchResult"),
        ("structuredDisplayPrice", .obj [("primaryLine", .obj [("price", .str "263.50 CHF")])])]

/-- A search result whose composite id token `"!!bad!!"` fails base64/utf-8
decoding. -/
def resBadTok : JVal :=
  .obj [("__typename", .str "StaySearchResult"),
        ("demandStayListing", .obj [("id", .str "!!bad!!")])]

/-- A search result whose composite id token is present but is the empty
string. -/
def resEmptyTok : JVal :=
  .obj [("__typename", .str "StaySearchResult"),
        ("demandStayListing", .obj [("id", .str "")])]

/-- A full embedded-state document: one niobe entry holding two search
results (`resCHF`, `resNA`) and a next-page cursor. -/
def fixtureData : JVal :=
  let results : JVal :=
    .obj [("searchResults", .arr [resCHF, resNA]),
          ("paginationInfo", .obj [("nextPageCursor", .str "CUR2")])]
  let presentation : JVal := .obj [("staysSearch", .obj [("results", results)])]
  let entry : JVal := .arr [.num 0, .obj [("data", .obj [("presentation", presentation)])]]
  .obj [("niobeClientData", .arr [entry])]

/-- Projection used to state concrete parse results: the `price_int` of a
successfully extracted listing. -/
def extractedPriceInt (r : PyM (Option Listing)) : Option Int :=
  match r with
  | .ok (some l) => some l.price_int
  | _ => none

/-- Projection: the `id` of a successfully extracted listing. -/
def extractedId (r : PyM (Option Listing)) : Option JVal :=
  match r with
  | .ok (some l) => some l.id
  | _ => none

/-- Projection: the `url` of a successfully extracted listing. -/
def extractedUrl (r : PyM (Option Listing)) : Option JVal :=
  match r with
  | .ok (some l) => some l.url
  | _ => none

/-- Criteria with no optional filter. -/
def cNone : UrlCriteria :=
  ⟨"Zürich", 2, 0, 0, 0, "2026-05-28", "2026-06-30",
   none, none, none, none, none, none, none⟩

/-- Criteria with exactly one optional filter — a single amenities filter
carrying two amenity values (WiFi 4, Kitchen 8). -/
def cAmenOnly : UrlCriteria :=
  ⟨"Bern", 2, 0, 0, 0, "2026-05-28", "2026-06-30",
   none, none, some [4, 8], none, none, none, none⟩

/-- Criteria with two optional filters (min price and room type). -/
def cTwo : UrlCriteria :=
  ⟨"Basel", 1, 0, 0, 0, "2026-05-28", "2026-06-30",
   some 100, none, none, some "Entire home/apt", none, none, none⟩

/-- The listing record `resCHF` parses to. -/
def outCHF : Listing :=
  ⟨.str "111", .str "Flat A", .str "263 CHF", 263, .str "263 CHF total", .str "4.9",
   [.str "img1"], .str "https://www.airbnb.ch/rooms/111"⟩

/-- The listing record `resNA` parses to: kept, with `price_int = 0`. -/
def outNA : Listing :=
  ⟨.null, .null, .str "N/A", 0, .str "", .str "N/A", [], .null⟩

/-- The listing record `resBadTok` parses to: kept, with the raw token as id
and the detail URL built from it. -/
def outBadTok : Listing :=
  ⟨.str "!!bad!!", .null, .str "N/A", 0, .str "", .str "N/A", [],
   .str "https://www.airbnb.ch/rooms/!!bad!!"⟩

/-! ## Helper lemmas -/

lemma is_in_cooldown_prune (s : ProxyState) (now p) :
    is_in_cooldown (prune_expired_cooldowns s now) p now = is_in_cooldown s p now := by
  simp only [is_in_cooldown, prune_expired_cooldowns]
  cases s.cooldownUntil p with
  | none => rfl
  | some u => by_cases h : now < u <;> simp [h]

lemma availableProxies_prune (s : ProxyState) (now : Nat) :
    availableProxies (prune_expired_cooldowns s now) now = availableProxies s now := by
  simp only [availableProxies]
  have hp : (prune_expired_cooldowns s now).proxies = s.proxies := rfl
  rw [hp]
  apply List.filter_congr
  intro p _
  rw [is_in_cooldown_prune]

lemma get_healthy_proxy_eq (s : ProxyState) (now : Nat) :
    get_healthy_proxy s now =
      if s.proxies.isEmpty then none else (availableProxies s now).head? := by
  simp only [get_healthy_proxy, get_healthy_proxy_run]
  by_cases h : s.proxies.isEmpty <;> simp [h, availableProxies_prune]

lemma head?_mem {α : Type} {l : List α} {a : α} (h : l.head? = some a) : a ∈ l := by
  cases l with
  | nil => cases h
  | cons b t => simp at h; simp [h]

lemma filter_nil_iff {α : Type} (l : List α) (f : α → Bool) :
    l.filter f = [] ↔ ∀ a ∈ l, f a = false := by
  induction l with
  | nil => simp
  | cons a t ih => cases h : f a <;> simp [List.filter_cons, h, ih]

lemma get?_mem {α : Type} : ∀ (l : List α) (n : Nat) (a : α), l.get? n = some a → a ∈ l := by
  intro l
  induction l with
  | nil => intro n a h; cases h
  | cons b t ih =>
    intro n a h
    cases n with
    | zero => simp at h; simp [h]
    | succ m => exact List.mem_cons_of_mem _ (ih m a h)

lemma get?_isSome_of_lt {α : Type} : ∀ (l : List α) (n : Nat), n < l.length → (l.get? n).isSome := by
  intro l
  induction l with
  | nil => intro n h; cases h
  | cons b t ih =>
    intro n h
    cases n with
    | zero => rfl
    | succ m => exact ih m (Nat.lt_of_succ_lt_succ h)

lemma mem_availableProxies (s : ProxyState) (now : Nat) (p : String) :
    p ∈ availableProxies s now ↔ p ∈ s.proxies ∧ is_in_cooldown s p now = false := by
  simp [availableProxies, List.mem_filter]

/-! ## Claims about the proxy pool -/

/-- C1: `get_healthy_proxy` (round-robin and random strategies) never returns
an endpoint whose cooldown has not yet expired, and returns `None` exactly
when the pool is empty or every configured endpoint is currently cooling
down (the function is total: it never raises and never blocks). -/
theorem claim_C1 (s : ProxyState) (now : Nat) :
    (∀ p, get_healthy_proxy s now = some p → p ∈ s.proxies ∧ is_in_cooldown s p now = false) ∧
    (get_healthy_proxy s now = none ↔
      s.proxies = [] ∨ ∀ p ∈ s.proxies, is_in_cooldown s p now = true) ∧
    (∀ k p, get_healthy_proxy_random s now k = some p →
      p ∈ s.proxies ∧ is_in_cooldown s p now = false) ∧
    (∀ k, get_healthy_proxy_random s now k = none ↔
      s.proxies = [] ∨ ∀ p ∈ s.proxies, is_in_cooldown s p now = true) := by
  have hrand : ∀ k, get_healthy_proxy_random s now k =
      if s.proxies.isEmpty then none
      else if (availableProxies s now).isEmpty then none
      else (availableProxies s now).get? (k % (availableProxies s now).length) := by
    intro k
    simp only [get_healthy_proxy_random]
    by_cases h : s.proxies.isEmpty <;> simp [h, availableProxies_prune]
  have hcool : ∀ p, p ∈ availableProxies s now ↔
      p ∈ s.proxies ∧ is_in_cooldown s p now = false := mem_availableProxies s now
  have hnone : (availableProxies s now = []) ↔
      ∀ p ∈ s.proxies, is_in_cooldown s p now = true := by
    rw [availableProxies, filter_nil_iff]
    constructor
    · intro h p hp
      have := h p hp
      simpa using this
    · intro h p hp
      simp [h p hp]
  refine ⟨?_, ?_, ?_, ?_⟩
  · intro p hp
    rw [get_healthy_proxy_eq] at hp
    by_cases he : s.proxies.isEmpty
    · rw [if_pos he] at hp
      cases hp
    · rw [if_neg he] at hp
      exact (hcool p).mp (head?_mem hp)
  · rw [get_healthy_proxy_eq]
    by_cases he : s.proxies.isEmpty
    · simp [he, List.isEmpty_iff.mp he]
    · rw [if_neg he, List.head?_eq_none_iff, hnone]
      have hne : ¬ s.proxies = [] := by
        intro h
        exact he (by simp [h])
      simp [hne]
  · intro k p hp
    rw [hrand k] at hp
    by_cases he : s.proxies.isEmpty
    · rw [if_pos he] at hp
      cases hp
    · rw [if_neg he] at hp
      by_cases ha : (availableProxies s now).isEmpty
      · rw [if_pos ha] at hp
        cases hp
      · rw [if_neg ha] at hp
        exact (hcool p).mp (get?_mem _ _ _ hp)
  · intro k
    rw [hrand k]
    by_cases he : s.proxies.isEmpty
    · simp [he, List.isEmpty_iff.mp he]
    · have hne : ¬ s.proxies = [] := by
        intro h
        exact he (by simp [h])
      rw [if_neg he]
      by_cases ha : (availableProxies s now).isEmpty
      · rw [if_pos ha]
        have hall := hnone.mp (List.isEmpty_iff.mp ha)
        simp only [true_iff, iff_true]
        exact Or.inr hall
      · have hlen : 0 < (availableProxies s now).length := by
          cases hl : availableProxies s now with
          | nil => rw [hl] at ha; simp at ha
          | cons a t => simp [hl]
        have hsome := get?_isSome_of_lt (availableProxies s now)
          (k % (availableProxies s now).length) (Nat.mod_lt _ hlen)
        rw [if_neg ha]
        constructor
        · intro h
          rw [h] at hsome
          cases hsome
        · intro h
          rcases h with h | h
          · exact absurd h hne
          · exact absurd (hnone.mpr h) (fun hh => by rw [hh] at ha; simp at ha)

/-- C1 witness: on the pool `poolW` (endpoint `a` cooling until 10, `b`
free) at time 5, the returned endpoint `b` is configured and not cooling. -/
theorem claim_C1_witness :
    "b" ∈ poolW.proxies ∧ is_in_cooldown poolW "b" 5 = false :=
  (claim_C1 poolW 5).1 "b" (by decide)

/-- C7: `mark_failed` sets the endpoint's cooldown expiry to
`now + cooldown_seconds`; re-marking simply overwrites the expiry with the
new one; in a single-proxy pool, marking and immediately asking for a
healthy proxy yields `None` (for a positive cooldown), and once the cooldown
has elapsed the same endpoint is returned again. -/
theorem claim_C7 (s : ProxyState) (p : String) (now cd now2 cd2 : Nat) :
    ((mark_failed s p now cd).cooldownUntil p = some (now + cd)) ∧
    ((mark_failed (mark_failed s p now cd) p now2 cd2).cooldownUntil p = some (now2 + cd2)) ∧
    (s.proxies = [p] → 0 < cd → get_healthy_proxy (mark_failed s p now cd) now = none) ∧
    (s.proxies = [p] → ∀ t, now + cd ≤ t → get_healthy_proxy (mark_failed s p now cd) t = some p) := by
  refine ⟨by simp [mark_failed], by simp [mark_failed], ?_, ?_⟩
  · intro hp hcd
    rw [get_healthy_proxy_eq]
    have hpr : (mark_failed s p now cd).proxies = [p] := hp
    have hcool : is_in_cooldown (mark_failed s p now cd) p now = true := by
      simp [is_in_cooldown, mark_failed]
      omega
    simp [hpr, availableProxies, hcool]
  · intro hp t ht
    rw [get_healthy_proxy_eq]
    have hpr : (mark_failed s p now cd).proxies = [p] := hp
    have hcool : is_in_cooldown (mark_failed s p now cd) p t = false := by
      simp [is_in_cooldown, mark_failed]
      omega
    simp [hpr, availableProxies, hcool]

/-- C7 witness: single-proxy pool, mark at time 0 with the default 120 s
cooldown — `get_healthy_proxy` at time 0 gives `None`, and at time 120 gives
`p1` again. -/
theorem claim_C7_witness :
    get_healthy_proxy (mark_failed poolOne "p1" 0 120) 0 = none ∧
    get_healthy_proxy (mark_failed poolOne "p1" 0 120) 120 = some "p1" :=
  ⟨(claim_C7 poolOne "p1" 0 120 0 0).2.2.1 (by decide) (by decide),
   (claim_C7 poolOne "p1" 0 120 0 0).2.2.2 (by decide) 120 (by decide)⟩

/-- C8 (code bug): under the round-robin strategy, `get_healthy_proxy` does
NOT rotate: on the two-proxy pool `poolAB` with nothing cooling, two
successive calls (the second one on the state left by the first) both return
`p1`, never `p2` — the source's `available.append(available.pop(0))`
rotates a per-call local list that is immediately discarded, contradicting
its own `# Rotate the available list` comment and the class docstring
`Round-robin rotation for even distribution`. -/
theorem claim_C8_codebug :
    (get_healthy_proxy_run poolAB 0).1 = some "p1" ∧
    (get_healthy_proxy_run (get_healthy_proxy_run poolAB 0).2 0).1 = some "p1" ∧
    (some "p1" : Option String) ≠ some "p2" :=
  ⟨by decide, by decide, by decide⟩

/-! ## Claims about the orchestrators -/

/-- C2 (amended): in the worker orchestrator (`search_airbnb`), a retryable
network failure on a page while a proxy is in use marks that proxy failed,
clears it, and retries that same page exactly once directly; a failing direct
retry stops the run, returning everything accumulated so far; the spec's
end-to-end scenario (page 1 through the proxy, page 2 network-fails on the
proxy and succeeds directly) marks the proxy exactly once and still counts
page 2's listings.  The microservice orchestrator (`search_listings`)
instead responds to a retryable network failure by marking that proxy and
moving on to the *next* healthy proxy; a single direct attempt happens only
under the source's `if response is None:` guard, i.e. when no proxy attempt
produced any HTTP response; if that direct attempt also fails at the network
level, the run likewise returns everything accumulated so far (with
`success = False`). -/
theorem claim_C2 {α : Type} (fetch : Nat → Option String → FetchOutcome α) (imp : α → Nat)
    (p : String) (page r total pages : Nat) (marked : List String)
    (trace : List (Nat × Option String)) :
    (fetch page (some p) = .netErr →
      (∀ c next, fetch page none = .ok c next → cursorTruthy next = false →
        searchLoop fetch imp (some p) page (r + 1) total pages marked trace =
          ⟨total + imp c, pages + 1, marked ++ [p], trace ++ [(page, some p), (page, none)]⟩) ∧
      (∀ c next, fetch page none = .ok c next → cursorTruthy next = true →
        searchLoop fetch imp (some p) page (r + 1) total pages marked trace =
          searchLoop fetch imp none (page + 1) r (total + imp c) (pages + 1)
            (marked ++ [p]) (trace ++ [(page, some p), (page, none)])) ∧
      (fetch page none = .netErr ∨ (∃ body, fetch page none = .httpErr body) ∨
          fetch page none = .parseErr →
        searchLoop fetch imp (some p) page (r + 1) total pages marked trace =
          ⟨total, pages, marked ++ [p], trace ++ [(page, some p), (page, none)]⟩)) ∧
    (∀ c1 c2 cur, fetch 1 (some p) = .ok c1 (some cur) → cur ≠ "" →
      fetch 2 (some p) = .netErr → fetch 2 none = .ok c2 none →
      search_airbnb fetch imp (some p) 2 =
        ⟨imp c1 + imp c2, 2, [p], [(1, some p), (2, some p), (2, none)]⟩) ∧
    (∀ (s : ProxyState) (now cd b : Nat) (resp : Option (PageResp α)) (m : List String)
        (t : List (Nat × Option String)) (q : String),
      get_healthy_proxy s now = some q → fetch page (some q) = .netErr →
      msTryProxies fetch page now cd (b + 1) s resp m t =
        msTryProxies fetch page now cd b (mark_failed s q now cd) resp (m ++ [q])
          (t ++ [(page, some q)])) ∧
    (∀ (s s1 : ProxyState) (now cd pg2 r2 pages2 : Nat) (acc : List α) (m : List String)
        (t : List (Nat × Option String)) (m1 : List String)
        (t1 : List (Nat × Option String)),
      msTryProxies fetch pg2 now cd s.proxies.length s none m t = (none, s1, m1, t1) →
      fetch pg2 none = .netErr →
      msLoop fetch now cd pg2 (r2 + 1) s acc pages2 m t =
        (⟨false, acc, pages2, m1, t1 ++ [(pg2, none)]⟩, s1)) := by
  refine ⟨?_, ?_, ?_, ?_⟩
  · intro hnet
    refine ⟨?_, ?_, ?_⟩
    · intro c next hd hcur
      simp [searchLoop, hnet, hd, hcur]
    · intro c next hd hcur
      simp [searchLoop, hnet, hd, hcur]
    · intro hd
      rcases hd with hd | ⟨body, hd⟩ | hd <;> simp [searchLoop, hnet, hd]
  · intro c1 c2 cur h1 hcur h2 h3
    have hct : cursorTruthy (some cur) = true := by
      simp [cursorTruthy, hcur]
    simp [search_airbnb, searchLoop, h1, h2, h3, hct, cursorTruthy, hcur]
  · intro s now cd b resp m t q hq hnet
    simp [msTryProxies, hq, hnet]
  · intro s s1 now cd pg2 r2 pages2 acc m t m1 t1 hms hd
    simp [msLoop, hms, hd]

/-- C2 witness: the spec scenario on a concrete oracle — 18 listings on page
1 through proxy `p1`, a network failure then a successful direct retry with 5
listings on page 2: 23 listings total, `p1` marked failed exactly once. -/
theorem claim_C2_witness :
    search_airbnb fetchScenario id (some "p1") 2 =
      ⟨23, 2, ["p1"], [(1, some "p1"), (2, some "p1"), (2, none)]⟩ := by
  have h := (claim_C2 fetchScenario id "p1" 1 0 0 0 [] []).2.1 18 5 "CUR"
    (by decide) (by decide) (by decide) (by decide)
  simpa using h

/-- C2 counterexample: the claim says a retryable failure is followed by a
single direct retry with the proxy marked once, but the microservice
orchestrator on a two-proxy pool answers page 1's network failure by trying
the second proxy next and marks both proxies before its direct attempt. -/
theorem claim_C2_counterexample :
    (search_listings fetchAllNet poolAB 0 120 1).1.trace =
      [(1, some "p1"), (1, some "p2"), (1, none)] ∧
    (search_listings fetchAllNet poolAB 0 120 1).1.marked = ["p1", "p2"] ∧
    (["p1", "p2"] : List String) ≠ ["p1"] :=
  ⟨by decide, by decide, by decide⟩

/-- C3 (amended): in the worker orchestrator, a fetch completing with a
non-2xx status (`httpErr`, the `HTTPError` of `raise_for_status`) stops the
run immediately — no further attempt for that request through another proxy
or directly (the trace gains exactly that one attempt), and the carrying
proxy is not marked/put on cooldown.  The microservice orchestrator instead
catches `HTTPError` together with the network errors: the carrying proxy IS
marked failed and the next healthy proxy is tried, with the `response`
variable left bound to the non-2xx response — so no direct retry follows a
non-2xx (the `if response is None:` guard fails) and the stale non-2xx body
is what gets parsed. -/
theorem claim_C3 {α : Type} (fetch : Nat → Option String → FetchOutcome α) (imp : α → Nat)
    (pr : Option String) (page r total pages : Nat) (marked : List String)
    (trace : List (Nat × Option String)) :
    (∀ body, fetch page pr = .httpErr body →
      searchLoop fetch imp pr page (r + 1) total pages marked trace =
        ⟨total, pages, marked, trace ++ [(page, pr)]⟩) ∧
    (∀ (s : ProxyState) (now cd b : Nat) (resp : Option (PageResp α)) (m : List String)
        (t : List (Nat × Option String)) (q : String) (body : PageResp α),
      get_healthy_proxy s now = some q → fetch page (some q) = .httpErr body →
      msTryProxies fetch page now cd (b + 1) s resp m t =
        msTryProxies fetch page now cd b (mark_failed s q now cd) (some body) (m ++ [q])
          (t ++ [(page, some q)])) := by
  constructor
  · intro body hh
    simp [searchLoop, hh]
  · intro s now cd b resp m t q body hq hh
    simp [msTryProxies, hq, hh]

/-- C3 witness: a non-2xx on the very first page of a worker run ends it at
once — one attempt in the trace, nothing marked, nothing accumulated. -/
theorem claim_C3_witness :
    searchLoop fetchAllHttp id (some "p9") 1 1 0 0 [] [] =
      ⟨0, 0, [], [(1, some "p9")]⟩ :=
  (claim_C3 fetchAllHttp id (some "p9") 1 0 0 0 [] []).1 .parseErr (by decide)

/-- C3 counterexample: the claim says a non-2xx aborts immediately with the
same request not re-attempted through another proxy and the carrying proxy
not put on cooldown; but on a two-proxy pool where every response is a
non-2xx error page, the microservice orchestrator re-attempts page 1 through
the second proxy and puts both proxies on cooldown (no direct attempt
follows — the retained non-2xx body is parsed, ending the run with
`success = False`). -/
theorem claim_C3_counterexample :
    (search_listings fetchAllHttp poolAB 0 120 1).1.trace =
      [(1, some "p1"), (1, some "p2")] ∧
    (search_listings fetchAllHttp poolAB 0 120 1).1.marked = ["p1", "p2"] ∧
    (search_listings fetchAllHttp poolAB 0 120 1).2.cooldownUntil "p1" = some 120 ∧
    (search_listings fetchAllHttp poolAB 0 120 1).1.success = false ∧
    (["p1", "p2"] : List String) ≠ [] :=
  ⟨by decide, by decide, by decide, by decide, by decide⟩

/-- C9 (code bug): `get_listing_details` returns Python `None` — no result
record at all — whenever the proxy loop obtained any result, because the
source's `return {"success": ...}` statements sit inside the
`if result is None:` block; with an empty pool (so the loop is skipped) the
documented success record is produced.  This contradicts the function's own
docstring ("Returns: Dictionary containing detailed listing information"). -/
theorem claim_C9_codebug :
    get_listing_details fetchDok poolOne 0 120 = none ∧
    get_listing_details fetchDok poolEmpty 0 120 = some (.success 7) :=
  ⟨by decide, by decide⟩

/-! ## Claims about the search parser -/

lemma except_bind_ok {ε α β : Type} {x : Except ε α} {f : α → Except ε β} {b : β}
    (h : (x >>= f) = .ok b) : ∃ a, x = .ok a ∧ f a = .ok b := by
  cases x with
  | error e => simp [Bind.bind, Except.bind] at h
  | ok a => exact ⟨a, rfl, by simpa [Bind.bind, Except.bind] using h⟩

/-- Shape of every listing record produced by `extract_listing`: its id is
`listing_id_of` of the token, its `price_int` is `price_int_of` of its stored
`price_text`, and its url is built from a truthy id (else `None`). -/
lemma extract_listing_ok {b64 : String → Option String} {result : JVal} {l : Listing}
    (h : extract_listing b64 result = .ok (some l)) :
    ∃ encoded, listing_token result = .ok encoded ∧
      l.id = listing_id_of b64 encoded ∧
      l.price_int = price_int_of l.price_text ∧
      l.url = (if pyTruthy (listing_id_of b64 encoded) then
        JVal.str ("https://www.airbnb.ch/rooms/" ++ pyStr (listing_id_of b64 encoded))
        else JVal.null) := by
  simp only [extract_listing] at h
  obtain ⟨tn, htn, h⟩ := except_bind_ok h
  by_cases htype : (! pyEqStr tn "StaySearchResult") = true
  · rw [if_pos htype] at h
    simp [pure, Except.pure] at h
  · rw [if_neg htype] at h
    obtain ⟨encoded, henc, h⟩ := except_bind_ok h
    obtain ⟨nl, hnl, h⟩ := except_bind_ok h
    obtain ⟨t1, ht1, h⟩ := except_bind_ok h
    obtain ⟨title, htitle, h⟩ := except_bind_ok h
    obtain ⟨sdp, hsdp, h⟩ := except_bind_ok h
    obtain ⟨priceObj, hpo, h⟩ := except_bind_ok h
    obtain ⟨p1, hp1, h⟩ := except_bind_ok h
    obtain ⟨ptext, hpt, h⟩ := except_bind_ok h
    obtain ⟨pacc, hpacc, h⟩ := except_bind_ok h
    obtain ⟨rating, hrating, h⟩ := except_bind_ok h
    obtain ⟨pics, hpics, h⟩ := except_bind_ok h
    obtain ⟨picList, hpl, h⟩ := except_bind_ok h
    obtain ⟨urls, hurls, h⟩ := except_bind_ok h
    simp only [pure, Except.pure, Except.ok.injEq, Option.some.injEq] at h
    subst h
    exact ⟨encoded, henc, rfl, rfl, rfl⟩

/-- Every listing in the output of `listing_loop` was produced by a
successful `extract_listing` on some search-result node. -/
lemma listing_loop_ok {b64 : String → Option String} :
    ∀ (rs : List JVal) (ls : List Listing), listing_loop b64 rs = .ok ls →
      ∀ l ∈ ls, ∃ r, extract_listing b64 r = .ok (some l) := by
  intro rs
  induction rs with
  | nil =>
    intro ls h l hl
    simp only [listing_loop, Except.ok.injEq] at h
    subst h
    cases hl
  | cons r rest ih =>
    intro ls h l hl
    simp only [listing_loop] at h
    obtain ⟨o, ho, h⟩ := except_bind_ok h
    obtain ⟨tail, htail, h⟩ := except_bind_ok h
    cases o with
    | some l0 =>
      simp only [Except.ok.injEq] at h
      subst h
      rcases List.mem_cons.mp hl with rfl | hmem
      · exact ⟨r, ho⟩
      · exact ih tail htail l hmem
    | none =>
      simp only [Except.ok.injEq] at h
      subst h
      exact ih tail htail l hl

/-- C4: on a missing `data-deferred-state-0` script element the parser
returns the explicit error value with the missing-script message; on
undecodable JSON it returns the distinct explicit error value with the
bad-JSON message; the two messages differ, and an error value is never equal
to an `(listings, cursor)` result — in particular never an empty listing
list. -/
theorem claim_C4 (find : String → Option String) (loads : String → Option JVal)
    (b64 : String → Option String) (html : String) :
    (find html = none →
      parse_airbnb_response find loads b64 html = .ok (.errResult msgMissingScript)) ∧
    (∀ txt, find html = some txt → loads txt = none →
      parse_airbnb_response find loads b64 html = .ok (.errResult msgBadJson)) ∧
    msgMissingScript ≠ msgBadJson ∧
    (∀ m ls cur, SearchParse.errResult m ≠ SearchParse.okResult ls cur) := by
  refine ⟨?_, ?_, by decide, ?_⟩
  · intro h
    simp [parse_airbnb_response, h]
  · intro txt h1 h2
    simp [parse_airbnb_response, h1, h2]
  · intro m ls cur h
    cases h

/-- C4 witness: concrete anchors — an HTML document without the script tag
yields the missing-script error; one whose script text is undecodable yields
the bad-JSON error. -/
theorem claim_C4_witness :
    parse_airbnb_response (fun _ => none) (fun _ => none) (fun _ => none) "page" =
      .ok (.errResult msgMissingScript) ∧
    parse_airbnb_response (fun _ => some "not json") (fun _ => none) (fun _ => none) "page" =
      .ok (.errResult msgBadJson) :=
  ⟨(claim_C4 (fun _ => none) (fun _ => none) (fun _ => none) "page").1 rfl,
   (claim_C4 (fun _ => some "not json") (fun _ => none) (fun _ => none) "page").2.1
     "not json" rfl rfl⟩

/-- C6 (amended): every listing of a parsed search page carries
`price_int = price_int_of price_text`, where `price_int_of` resolves the
price from the primary field with the `discountedPrice` fallback and parses
it by stripping the apostrophe thousands separator and the literal `CHF`,
trimming, and applying `int()` — unparseable text (or a falsy/`'N/A'` value)
defaults to 0 and never raises; `"263 CHF"` gives 263, and a `"N/A"` listing
is kept with price 0. -/
theorem claim_C6 (find : String → Option String) (loads : String → Option JVal)
    (b64 : String → Option String) (html : String) (ls : List Listing) (cur : JVal)
    (h : parse_airbnb_response find loads b64 html = .ok (.okResult ls cur)) :
    (∀ l ∈ ls, l.price_int = price_int_of l.price_text) ∧
    price_int_of (.str "263 CHF") = 263 ∧
    price_int_of (.str "N/A") = 0 ∧
    extractedPriceInt (extract_listing (fun _ => none) resNA) = some 0 := by
  refine ⟨?_, by decide, by decide, by decide⟩
  intro l hl
  rcases hf : find html with _ | txt
  · simp [parse_airbnb_response, hf] at h
  · rcases hload : loads txt with _ | data
    · simp [parse_airbnb_response, hf, hload] at h
    · simp only [parse_airbnb_response, hf, hload] at h
      obtain ⟨niobe, hn, h⟩ := except_bind_ok h
      obtain ⟨items, hi, h⟩ := except_bind_ok h
      obtain ⟨src, hsrc, h⟩ := except_bind_ok h
      obtain ⟨rlist, hr, h⟩ := except_bind_ok h
      obtain ⟨ls0, hls0, h⟩ := except_bind_ok h
      simp only [pure, Except.pure, Except.ok.injEq, SearchParse.okResult.injEq] at h
      obtain ⟨rfl, rfl⟩ := h
      obtain ⟨r, hre⟩ := listing_loop_ok rlist _ hls0 l hl
      obtain ⟨encoded, _, _, hp, _⟩ := extract_listing_ok hre
      exact hp

/-- C6 witness: parsing the fixture page (listings priced `"263 CHF"` and
`"N/A"`) — the first listing's stored integer price satisfies the relation
and equals 263. -/
theorem claim_C6_witness :
    outCHF.price_int = price_int_of outCHF.price_text ∧
    price_int_of (.str "263 CHF") = 263 := by
  have h := claim_C6 (fun _ => some "tag") (fun _ => some fixtureData) b64fix "page"
    [outCHF, outNA] (.str "CUR2") rfl
  exact ⟨h.1 outCHF (by simp), h.2.1⟩

/-- C6 counterexample: the claim says the integer price is obtained by
extracting the first run of digits from the price text, but on price text
`"263.50 CHF"` the code's `int()`-based parse yields 0 (the listing is kept
with a defaulted price), while the first digit run is 263. -/
theorem claim_C6_counterexample :
    extractedPriceInt (extract_listing (fun _ => none) resPrice) = some 0 ∧
    first_digit_run "263.50 CHF" = 263 ∧
    (0 : Int) ≠ (263 : Int) :=
  ⟨by decide, by decide, by decide⟩

/-- C10 (amended): a listing whose composite id token is a nonempty string
that fails base64/utf-8 decoding is kept, with the raw undecoded token as its
id and the detail URL built from that token; whenever the token is falsy —
absent, JSON `null`, or the empty string — the id is `None` and the detail
URL is `None`. -/
theorem claim_C10 (b64 : String → Option String) (result : JVal) (l : Listing) :
    (∀ s, listing_token result = .ok (.str s) → s ≠ "" → b64 s = none →
      extract_listing b64 result = .ok (some l) →
      l.id = .str s ∧ l.url = .str ("https://www.airbnb.ch/rooms/" ++ s)) ∧
    (∀ t, listing_token result = .ok t → pyTruthy t = false →
      extract_listing b64 result = .ok (some l) → l.id = .null ∧ l.url = .null) ∧
    (extract_listing (fun _ => none) resBadTok = .ok (some outBadTok)) := by
  refine ⟨?_, ?_, by rfl⟩
  · intro s htok hne hb64 hex
    obtain ⟨encoded, henc, hid, _, hurl⟩ := extract_listing_ok hex
    rw [htok] at henc
    injection henc with henc
    subst henc
    have hlid : listing_id_of b64 (.str s) = .str s := by
      simp [listing_id_of, pyTruthy, hne, hb64]
    rw [hlid] at hid hurl
    have htr : pyTruthy (JVal.str s) = true := by
      simp [pyTruthy, hne]
    rw [htr] at hurl
    simp only [if_true] at hurl
    exact ⟨hid, by simpa [pyStr] using hurl⟩
  · intro t htok hfalsy hex
    obtain ⟨encoded, henc, hid, _, hurl⟩ := extract_listing_ok hex
    rw [htok] at henc
    injection henc with henc
    subst henc
    have hlid : listing_id_of b64 t = .null := by
      simp [listing_id_of, hfalsy]
    rw [hlid] at hid hurl
    simp only [pyTruthy, if_false] at hurl
    exact ⟨hid, hurl⟩

/-- C10 witness: on the concrete result whose token `"!!bad!!"` fails
decoding, the parsed listing keeps the raw token as id and derives the
detail URL from it. -/
theorem claim_C10_witness :
    outBadTok.id = .str "!!bad!!" ∧
    outBadTok.url = .str ("https://www.airbnb.ch/rooms/" ++ "!!bad!!") :=
  (claim_C10 (fun _ => none) resBadTok outBadTok).1 "!!bad!!" rfl
    (by decide) rfl rfl

/-- C10 counterexample: the claim says the id is `None` only when the token
is absent entirely, but a listing whose token is present as the empty string
also gets id `None` (and no detail URL). -/
theorem claim_C10_counterexample :
    listing_token resEmptyTok = .ok (.str "") ∧
    extractedId (extract_listing (fun _ => none) resEmptyTok) = some JVal.null ∧
    extractedUrl (extract_listing (fun _ => none) resEmptyTok) = some JVal.null ∧
    JVal.str "" ≠ JVal.null :=
  ⟨rfl, rfl, rfl, fun h => JVal.noConfusion h⟩

/-! ## Claim about the query builder -/

lemma find_set_mem (k : String) (v : PVal) :
    ∀ ps : List (String × PVal), ps.any (fun kv => kv.1 = k) = true →
      (ps.map (fun kv => if kv.1 = k then (k, v) else kv)).find? (fun kv => kv.1 = k)
        = some (k, v) := by
  intro ps
  induction ps with
  | nil => intro h; simp at h
  | cons hd tl ih =>
    intro h
    rw [List.map_cons]
    by_cases hh : hd.1 = k
    · rw [if_pos hh]
      simp [List.find?]
    · have hdec : decide (hd.1 = k) = false := by simp [hh]
      rw [if_neg hh]
      simp only [List.find?, hdec]
      apply ih
      simpa [List.any_cons, hh] using h

lemma find_set_ne (k : String) (v : PVal) (k' : String) (h : ¬ k' = k) :
    ∀ ps : List (String × PVal),
      ((ps.map (fun kv => if kv.1 = k then (k, v) else kv)).find?
          (fun kv => kv.1 = k')).map (fun kv => kv.2) =
        (ps.find? (fun kv => kv.1 = k')).map (fun kv => kv.2) := by
  intro ps
  induction ps with
  | nil => simp
  | cons hd tl ih =>
    rw [List.map_cons]
    by_cases hh : hd.1 = k
    · have h1 : decide (((k, v) : String × PVal).1 = k') = false := by
        simp
        intro hc
        exact h hc.symm
      have h2 : decide (hd.1 = k') = false := by
        simp [hh]
        intro hc
        exact h hc.symm
      rw [if_pos hh]
      simp only [List.find?, h1, h2]
      exact ih
    · rw [if_neg hh]
      by_cases hk : hd.1 = k'
      · have h1 : decide (hd.1 = k') = true := by simp [hk]
        simp only [List.find?, h1]
      · have h1 : decide (hd.1 = k') = false := by simp [hk]
        simp only [List.find?, h1]
        exact ih

lemma find_append_self (k : String) (v : PVal) :
    ∀ ps : List (String × PVal), ps.any (fun kv => kv.1 = k) = false →
      ((ps ++ [(k, v)]).find? (fun kv => kv.1 = k)).map (fun kv => kv.2) = some v := by
  intro ps
  induction ps with
  | nil =>
    intro _
    rw [List.nil_append]
    simp [List.find?]
  | cons hd tl ih =>
    intro h
    rw [List.any_cons, Bool.or_eq_false_iff] at h
    rw [List.cons_append]
    simp only [List.find?, h.1]
    exact ih h.2

lemma find_append_ne (k : String) (v : PVal) (k' : String) (h : ¬ k' = k) :
    ∀ ps : List (String × PVal),
      ((ps ++ [(k, v)]).find? (fun kv => kv.1 = k')).map (fun kv => kv.2) =
        (ps.find? (fun kv => kv.1 = k')).map (fun kv => kv.2) := by
  intro ps
  induction ps with
  | nil =>
    have hdec : decide (((k, v) : String × PVal).1 = k') = false := by
      simp
      intro hc
      exact h hc.symm
    rw [List.nil_append]
    simp only [List.find?, hdec]
  | cons hd tl ih =>
    rw [List.cons_append]
    by_cases hk : hd.1 = k'
    · have hdec : decide (hd.1 = k') = true := by simp [hk]
      simp only [List.find?, hdec]
    · have hdec : decide (hd.1 = k') = false := by simp [hk]
      simp only [List.find?, hdec]
      exact ih

lemma getParam_setParam_self (ps : List (String × PVal)) (k : String) (v : PVal) :
    getParam (setParam ps k v) k = some v := by
  simp only [setParam, getParam]
  by_cases hany : ps.any (fun kv => kv.1 = k) = true
  · rw [if_pos hany, find_set_mem k v ps hany]
    rfl
  · rw [if_neg hany]
    exact find_append_self k v ps (Bool.eq_false_iff.mpr hany)

lemma getParam_setParam_ne (ps : List (String × PVal)) (k : String) (v : PVal) (k' : String)
    (h : ¬ k' = k) : getParam (setParam ps k v) k' = getParam ps k' := by
  simp only [setParam, getParam]
  by_cases hany : ps.any (fun kv => kv.1 = k) = true
  · rw [if_pos hany]
    exact find_set_ne k v k' h ps
  · rw [if_neg hany]
    exact find_append_ne k v k' h ps

lemma getParam_price_nights (nn : Option Int) (ps : List (String × PVal)) (key : String)
    (h : ¬ key = "price_filter_num_nights") :
    getParam (price_nights_param nn ps) key = getParam ps key := by
  rcases nn with _ | v
  · rfl
  · by_cases hv : (v != 0) = true <;>
      simp [price_nights_param, hv, getParam_setParam_ne _ _ _ _ h]

/-- The incrementally built `selected_filter_order` list equals the direct
per-filter concatenation `filter_entries`. -/
lemma apply_filters_sfo (c : UrlCriteria) (ps : List (String × PVal)) :
    (apply_filters c ps).2 = filter_entries c := by
  rcases hpm : c.price_min with _ | pmv <;>
  rcases hpx : c.price_max with _ | pxv <;>
  by_cases hat : amenitiesTruthy c <;>
  rcases hrt : c.room_type with _ | rtv <;>
  rcases hbd : c.min_bedrooms with _ | bdv <;>
  rcases hbe : c.min_beds with _ | bev <;>
  rcases hba : c.min_bathrooms with _ | bav <;>
  simp [apply_filters, filter_entries, hat, hpm, hpx, hrt, hbd, hbe, hba]

/-- The filter branches never touch the four request-mode parameters. -/
lemma apply_filters_modeKeys (c : UrlCriteria) (ps : List (String × PVal)) (key : String)
    (hk : key = "search_type" ∨ key = "search_mode" ∨ key = "update_selected_filters" ∨
      key = "selected_filter_order[]") :
    getParam (apply_filters c ps).1 key = getParam ps key := by
  have h1 : ¬ key = "price_filter_input_type" := by rcases hk with rfl | rfl | rfl | rfl <;> decide
  have h2 : ¬ key = "channel" := by rcases hk with rfl | rfl | rfl | rfl <;> decide
  have h3 : ¬ key = "price_filter_num_nights" := by
    rcases hk with rfl | rfl | rfl | rfl <;> decide
  have h4 : ¬ key = "price_min" := by rcases hk with rfl | rfl | rfl | rfl <;> decide
  have h5 : ¬ key = "price_max" := by rcases hk with rfl | rfl | rfl | rfl <;> decide
  have h6 : ¬ key = "amenities[]" := by rcases hk with rfl | rfl | rfl | rfl <;> decide
  have h7 : ¬ key = "room_types[]" := by rcases hk with rfl | rfl | rfl | rfl <;> decide
  have h8 : ¬ key = "min_bedrooms" := by rcases hk with rfl | rfl | rfl | rfl <;> decide
  have h9 : ¬ key = "min_beds" := by rcases hk with rfl | rfl | rfl | rfl <;> decide
  have h10 : ¬ key = "min_bathrooms" := by rcases hk with rfl | rfl | rfl | rfl <;> decide
  rcases hpm : c.price_min with _ | pmv <;>
  rcases hpx : c.price_max with _ | pxv <;>
  by_cases hat : amenitiesTruthy c <;>
  rcases hrt : c.room_type with _ | rtv <;>
  rcases hbd : c.min_bedrooms with _ | bdv <;>
  rcases hbe : c.min_beds with _ | bev <;>
  rcases hba : c.min_bathrooms with _ | bav <;>
  simp [apply_filters, hat, hpm, hpx, hrt, hbd, hbe, hba,
    getParam_setParam_ne _ _ _ _ h1, getParam_setParam_ne _ _ _ _ h2,
    getParam_price_nights _ _ _ h3,
    getParam_setParam_ne _ _ _ _ h4, getParam_setParam_ne _ _ _ _ h5,
    getParam_setParam_ne _ _ _ _ h6, getParam_setParam_ne _ _ _ _ h7,
    getParam_setParam_ne _ _ _ _ h8, getParam_setParam_ne _ _ _ _ h9,
    getParam_setParam_ne _ _ _ _ h10]

/-- With at least one filter present, the entry list is nonempty. -/
lemma filter_entries_ne_nil (c : UrlCriteria) (hf : has_filters c = true) :
    ¬ filter_entries c = [] := by
  rcases hpm : c.price_min with _ | pmv <;>
  rcases hpx : c.price_max with _ | pxv <;>
  rcases ham : c.amenities with _ | amv <;>
  (try rcases amv with _ | ⟨a, as⟩) <;>
  rcases hrt : c.room_type with _ | rtv <;>
  rcases hbd : c.min_bedrooms with _ | bdv <;>
  rcases hbe : c.min_beds with _ | bev <;>
  rcases hba : c.min_bathrooms with _ | bav <;>
  simp_all [has_filters, filter_entries, amenitiesTruthy]

/-- C5 (amended): with no optional filter, `update_selected_filters` and
`selected_filter_order[]` are absent and `search_type` stays
`search_query`; with at least one optional filter, `search_type` becomes
`filter_change`, `search_mode` becomes `regular_search`,
`selected_filter_order[]` lists one `key:value` entry per chosen filter
value in the fixed order price_min, price_max, amenities (one entry per
amenity value), room_types, min_bedrooms, min_beds, min_bathrooms, and
`update_selected_filters` is `"true"` exactly when that entry list has more
than one entry — so a single amenities filter with several values already
yields `"true"`. -/
theorem claim_C5 (c : UrlCriteria) :
    (has_filters c = false →
      getParam (build_airbnb_url c).2 "update_selected_filters" = none ∧
      getParam (build_airbnb_url c).2 "selected_filter_order[]" = none ∧
      getParam (build_airbnb_url c).2 "search_mode" = none ∧
      getParam (build_airbnb_url c).2 "search_type" = some (.s "search_query")) ∧
    (has_filters c = true →
      getParam (build_airbnb_url c).2 "search_type" = some (.s "filter_change") ∧
      getParam (build_airbnb_url c).2 "search_mode" = some (.s "regular_search") ∧
      getParam (build_airbnb_url c).2 "selected_filter_order[]" =
        some (.strs (filter_entries c)) ∧
      getParam (build_airbnb_url c).2 "update_selected_filters" =
        some (.s (if 1 < (filter_entries c).length then "true" else "false"))) := by
  constructor
  · intro hf
    have hb : (build_airbnb_url c).2 = (apply_filters c (base_params c)).1 := by
      simp [build_airbnb_url, hf]
    rw [hb]
    refine ⟨?_, ?_, ?_, ?_⟩
    · rw [apply_filters_modeKeys c (base_params c) _ (Or.inr (Or.inr (Or.inl rfl)))]
      simp [getParam, base_params]
    · rw [apply_filters_modeKeys c (base_params c) _ (Or.inr (Or.inr (Or.inr rfl)))]
      simp [getParam, base_params]
    · rw [apply_filters_modeKeys c (base_params c) _ (Or.inr (Or.inl rfl))]
      simp [getParam, base_params]
    · rw [apply_filters_modeKeys c (base_params c) _ (Or.inl rfl)]
      simp [getParam, base_params]
  · intro hf
    have hsfo := apply_filters_sfo c (base_params c)
    have hne := filter_entries_ne_nil c hf
    have hemp : (apply_filters c (base_params c)).2.isEmpty = false := by
      rw [hsfo]
      cases he : filter_entries c with
      | nil => exact absurd he hne
      | cons a t => simp
    simp only [build_airbnb_url, hf, if_true, hemp, Bool.not_false]
    rw [hsfo]
    refine ⟨?_, ?_, ?_, ?_⟩
    · rw [getParam_setParam_ne _ _ _ _ (by decide), getParam_setParam_ne _ _ _ _ (by decide),
        getParam_setParam_ne _ _ _ _ (by decide), getParam_setParam_self]
    · rw [getParam_setParam_ne _ _ _ _ (by decide), getParam_setParam_ne _ _ _ _ (by decide),
        getParam_setParam_self]
    · rw [getParam_setParam_self]
    · rw [getParam_setParam_ne _ _ _ _ (by decide), getParam_setParam_self]

/-- C5 witness: no optional filter leaves the two filter parameters absent;
the two-filter criteria `cTwo` (min price + room type) yields the two
entries in order and the flag `"true"`. -/
theorem claim_C5_witness :
    getParam (build_airbnb_url cNone).2 "update_selected_filters" = none ∧
    getParam (build_airbnb_url cNone).2 "selected_filter_order[]" = none ∧
    getParam (build_airbnb_url cTwo).2 "update_selected_filters" = some (.s "true") ∧
    getParam (build_airbnb_url cTwo).2 "selected_filter_order[]" =
      some (.strs ["price_min:100", "room_types:Entire home/apt"]) := by
  have h1 := (claim_C5 cNone).1 (by decide)
  have h2 := (claim_C5 cTwo).2 (by decide)
  exact ⟨h1.1, h1.2.1, (h2.2.2.2).trans (by decide), (h2.2.2.1).trans (by decide)⟩

/-- C5 counterexample: the claim says `update_selected_filters` is `"true"`
exactly when more than one distinct filter key is present, and that one
optional filter with several amenity values yields `"false"`; but for
criteria whose only filter is `amenities=[4, 8]` (one distinct filter key)
the builder emits `"true"`, because the source counts
`len(selected_filter_order)` entries, one per amenity value. -/
theorem claim_C5_counterexample :
    getParam (build_airbnb_url cAmenOnly).2 "update_selected_filters" = some (.s "true") ∧
    spec_distinct_filter_keys cAmenOnly = 1 ∧
    PVal.s "true" ≠ PVal.s "false" :=
  ⟨by decide, by decide, by decide⟩

end OurBnb
